import Mathlib

/-!
# Blackfly camera shim: embedding of `Blackfly-Console.cpp`

The class `clsBlackfly` drives one camera through the vendor SDK and hands out
frames as OpenCV matrices.  The SDK and OpenCV are outside the repository, so
their calls are embedded by their documented behaviour.  For the SDK this is an
effect on an explicit state:

* the device node map is a key-value store (enumeration, float and integer
  nodes addressed by name); a write to one node leaves the other nodes alone
  and returns normally;
* the image stream is the list of frames delivered and not yet retrieved,
  oldest first (the SDK's default handling mode; the source selects no other);
* every effectful SDK call on the camera is appended to a ghost `trace`, and
  the raw images obtained and not yet released are kept in a ghost `held`.

`double` values are taken in an arbitrary linear order `R` (exact comparisons,
no NaN); machine integers are `Nat`/`Int` with explicit wrap-around.
-/

namespace Blackfly

/-! ## Machine integers -/

/-- Conversion to `unsigned int` (32 bits): reduction modulo `2^32`. -/
def toUInt32 (n : Nat) : Nat := n % 2 ^ 32

/-- Conversion to `int` (32 bits, two's complement): the representative of the
value modulo `2^32` that lies in `[-2^31, 2^31)`. -/
def toInt32 (v : Int) : Int := (v + 2 ^ 31) % 2 ^ 32 - 2 ^ 31

/-! ## SDK state -/

/-- Image behind an SDK `ImagePtr`, through the accessors the source uses:
`GetWidth`, `GetHeight`, `GetXPadding`, `GetYPadding`, `GetStride` (all
`size_t`) and `GetData` (the byte found at each offset from the returned
pointer).  The field `id` tells the handles apart. -/
structure Image where
  id : Nat
  width : Nat
  height : Nat
  xPadding : Nat
  yPadding : Nat
  stride : Nat
  data : Nat → Fin 256

/-- Effectful SDK calls made on the camera, in the form the source makes them.
`SetIntValue node v` is `ptr->SetIntValue(v)` on the enumeration node `node`,
`SetValue node v` is `ptr->SetValue(v)` on the float node `node`; the image
calls carry the `id` of the raw image they concern. -/
inductive Call (R : Type) where
  | Init
  | SetIntValue (node : String) (v : Int)
  | SetValue (node : String) (v : R)
  | SetColorProcessing
  | BeginAcquisition
  | GetNextImage (raw : Nat)
  | Convert (raw : Nat)
  | Release (raw : Nat)
  deriving DecidableEq

/-- Camera behind `pCam`: the node map, the stream of delivered frames, and the
ghost bookkeeping.  `enumEntry node name` is
`node->GetEntryByName(name)->GetValue()`. -/
structure Camera (R : Type) where
  enumEntry : String → String → Int
  enumValue : String → Int
  floatValue : String → R
  floatMin : String → R
  floatMax : String → R
  intValue : String → Int
  buffer : List Image
  held : List Nat
  trace : List (Call R)

/-- Effect of one SDK call on the camera (without the logging). -/
def Call.effect {R : Type} : Call R → Camera R → Camera R
  | .SetIntValue node v, d =>
      { d with enumValue := fun n => if n = node then v else d.enumValue n }
  | .SetValue node v, d =>
      { d with floatValue := fun n => if n = node then v else d.floatValue n }
  | .GetNextImage raw, d => { d with buffer := d.buffer.tail, held := raw :: d.held }
  | .Release raw, d => { d with held := d.held.erase raw }
  | .Init, d => d
  | .SetColorProcessing, d => d
  | .BeginAcquisition, d => d
  | .Convert _, d => d

/-- One SDK call: its effect, and its entry in the trace. -/
def sdk {R : Type} (c : Call R) (d : Camera R) : Camera R :=
  { c.effect d with trace := d.trace ++ [c] }

/-- Node map reached from `d` by a sequence of SDK calls. -/
def replay {R : Type} (cs : List (Call R)) (d : Camera R) : Camera R :=
  cs.foldl (fun d c => c.effect d) d

/-- The enumeration node `node` currently has the value of its entry `name`. -/
def Camera.enumIs {R : Type} (d : Camera R) (node name : String) : Prop :=
  d.enumValue node = d.enumEntry node name

/-- `ptr->SetIntValue(ptr->GetEntryByName(name)->GetValue())` on the
enumeration node `node`. -/
def setEnumByName {R : Type} (node name : String) (d : Camera R) : Camera R :=
  sdk (.SetIntValue node (d.enumEntry node name)) d

/-! ## OpenCV matrices

`cv::Mat` is library code outside the repository; it is embedded by its
documented behaviour.  A failed check of the library (a `cv::Exception`) is the
result `none`; memory allocation is taken to succeed and the data pointer
handed to the constructor is taken to be non-null. -/

/-- Conversion to `size_t` (64 bits): reduction modulo `2^64`. -/
def toSizeT (v : Int) : Nat := (v % 2 ^ 64).toNat

/-- A `cv::Mat` over bytes: `rows`, `cols` (both `int`), the element type, the
row step in bytes (`step[0]`), the element size in bytes as `Mat::elemSize`
returns it (`step[1]`; 0 for a matrix without dimensions), and the bytes behind
`data`. -/
structure Mat where
  rows : Int
  cols : Int
  type : Nat
  step : Nat
  elemSize : Nat
  data : Nat → Fin 256

/-- `CV_8UC1`: depth `CV_8U` (0), one channel. -/
def CV_8UC1 : Nat := 0

/-- `CV_ELEM_SIZE1`: the byte size of the depth of a type code. -/
def CV_ELEM_SIZE1 (type : Nat) : Nat :=
  match type % 8 with
  | 0 => 1 | 1 => 1 | 2 => 2 | 3 => 2 | 4 => 4 | 5 => 4 | 6 => 8 | _ => 2

/-- `CV_ELEM_SIZE`: channels times the byte size of the depth, for a type code
`depth + 8 * (channels - 1)`. -/
def CV_ELEM_SIZE (type : Nat) : Nat := (type / 8 + 1) * CV_ELEM_SIZE1 type

/-- `cv::Mat::AUTO_STEP`. -/
def AUTO_STEP : Nat := 0

/-- The constructor `cv::Mat(rows, cols, type, data, step)`: a header over user
data, nothing is copied.  With `minstep = cols * elemSize` (computed in
`size_t`), a `step` of `AUTO_STEP` is replaced by `minstep`; any other `step`
must be at least `minstep` and a multiple of the depth size, or the constructor
raises an error. -/
def Mat.ofUserData (rows cols : Int) (type : Nat) (data : Nat → Fin 256) (step : Nat) :
    Option Mat :=
  let esz := CV_ELEM_SIZE type
  let esz1 := CV_ELEM_SIZE1 type
  let minstep := (toSizeT cols * esz) % 2 ^ 64
  if step = AUTO_STEP then
    some { rows := rows, cols := cols, type := type, step := minstep, elemSize := esz,
           data := data }
  else if step < minstep then none
  else if step % esz1 ≠ 0 then none
  else
    some { rows := rows, cols := cols, type := type, step := step, elemSize := esz,
           data := data }

/-- `Mat::total` of a two-dimensional matrix: `(size_t)rows * cols`. -/
def Mat.total (m : Mat) : Nat := (toSizeT m.rows * toSizeT m.cols) % 2 ^ 64

/-- A default-constructed `cv::Mat`: no dimensions, no data. -/
def Mat.noData : Mat :=
  { rows := 0, cols := 0, type := 0, step := 0, elemSize := 0, data := fun _ => 0 }

/-- Byte of the element at row `r`, column `c`:
`data[r * step + c * elemSize]`. -/
def Mat.atUchar (m : Mat) (r c : Nat) : Fin 256 :=
  m.data (r * m.step + c * m.elemSize)

/-- `Mat::clone`, that is `copyTo` into a fresh matrix.  An empty matrix
(`total() == 0`) gives a default-constructed one; otherwise the destination is
created with the same size and type, which raises an error for a negative size,
and is a continuous deep copy: its row step is `cols * elemSize` and the bytes of
each row are those of the original row. -/
def Mat.clone (m : Mat) : Option Mat :=
  if m.total = 0 then some Mat.noData
  else if m.rows < 0 ∨ m.cols < 0 then none
  else
    let rowBytes := m.cols.toNat * m.elemSize
    some { m with
      step := rowBytes
      data := fun i => m.data (i / rowBytes * m.step + i % rowBytes) }

/-! ## The class -/

/-- Object state of `clsBlackfly`: the camera behind `pCam`, the conversion
performed by `ImgProcessor.Convert(·, PixelFormat_Mono8)` (vendor code, taken
as given), and the public fields `Width` and `Height` (`int`). -/
structure clsBlackfly (R : Type) where
  pCam : Camera R
  ImgProcessor : Image → Image
  Width : Int
  Height : Int

/-- The serial number the constructor looks for. -/
def SerialNo : String := "22421982"

/-- `clsBlackfly::SetExposure`. -/
def SetExposure {R : Type} [LinearOrder R] (Exposure : R) (self : clsBlackfly R) :
    clsBlackfly R :=
  let MinExposure := self.pCam.floatMin "ExposureTime"
  let MaxExposure := self.pCam.floatMax "ExposureTime"
  let Exposure := if Exposure < MinExposure then MinExposure else Exposure
  let Exposure := if Exposure > MaxExposure then MaxExposure else Exposure
  { self with pCam := sdk (.SetValue "ExposureTime" Exposure) self.pCam }

/-- `clsBlackfly::SetGain`. -/
def SetGain {R : Type} [LinearOrder R] (Gain : R) (self : clsBlackfly R) :
    clsBlackfly R :=
  let MinGain := self.pCam.floatMin "Gain"
  let MaxGain := self.pCam.floatMax "Gain"
  let Gain := if Gain < MinGain then MinGain else Gain
  let Gain := if Gain > MaxGain then MaxGain else Gain
  { self with pCam := sdk (.SetValue "Gain" Gain) self.pCam }

/-- `clsBlackfly::SetupTrigger`; `Trigger` is the character sequence of the C
string and `strcmp(..) == 0` is equality of the sequences. -/
def SetupTrigger {R : Type} (Trigger : String) (self : clsBlackfly R) : clsBlackfly R :=
  if Trigger = "None" then
    { self with pCam := setEnumByName "TriggerMode" "Off" self.pCam }
  else if Trigger = "Software" then
    let d := setEnumByName "TriggerMode" "Off" self.pCam
    let d := setEnumByName "TriggerSelector" "FrameStart" d
    let d := setEnumByName "TriggerSource" "Software" d
    let d := setEnumByName "TriggerMode" "On" d
    { self with pCam := d }
  else if Trigger = "Hardware" then
    let d := setEnumByName "TriggerMode" "Off" self.pCam
    let d := setEnumByName "TriggerSelector" "FrameStart" d
    let d := setEnumByName "TriggerSource" "Line0" d
    let d := setEnumByName "TriggerMode" "On" d
    { self with pCam := d }
  else self

/-- `clsBlackfly::CaptureImage_SpinnakerPtr`.  `GetNextImage(1000)` hands out
the oldest delivered frame; with no frame within the timeout the SDK throws,
which is the result `none`. -/
def CaptureImage_SpinnakerPtr {R : Type} (self : clsBlackfly R) :
    Option (Image × clsBlackfly R) :=
  match self.pCam.buffer with
  | [] => none
  | pRawImage :: _ =>
    let d := sdk (.GetNextImage pRawImage.id) self.pCam
    let pImage := self.ImgProcessor pRawImage
    let d := sdk (.Convert pRawImage.id) d
    let d := sdk (.Release pRawImage.id) d
    some (pImage, { self with pCam := d })

/-- Lines 45-52 of `clsBlackfly::CaptureImage_CVMat`: the matrix made from the
converted image.  The four sizes are narrowed from `size_t` to `unsigned int`,
added as `unsigned int`, and passed to the `int` parameters `rows` and `cols`
of the `cv::Mat` constructor; `GetStride()` is passed to the `size_t` parameter
`step` unchanged; the header over the image data is then deep-cloned.  The
result is `none` when OpenCV raises an error. -/
def cvMatOfImage (pImage : Image) : Option Mat :=
  let XPadding := toUInt32 pImage.xPadding
  let YPadding := toUInt32 pImage.yPadding
  let rowsize := toUInt32 pImage.width
  let colsize := toUInt32 pImage.height
  match Mat.ofUserData (toInt32 (toUInt32 (colsize + YPadding)))
      (toInt32 (toUInt32 (rowsize + XPadding))) CV_8UC1 pImage.data pImage.stride with
  | none => none
  | some cvimg => cvimg.clone

/-- `clsBlackfly::CaptureImage_CVMat`.  The outer `none` is the timeout of
`GetNextImage`, before any frame is obtained; once the SDK calls are made, the
first component is the matrix, or `none` when OpenCV raises an error. -/
def CaptureImage_CVMat {R : Type} (self : clsBlackfly R) :
    Option (Option Mat × clsBlackfly R) :=
  match CaptureImage_SpinnakerPtr self with
  | none => none
  | some (pImage, self) => some (cvMatOfImage pImage, self)

/-- `clsBlackfly::GetImage`. -/
def GetImage {R : Type} (self : clsBlackfly R) : Option (Option Mat × clsBlackfly R) :=
  CaptureImage_CVMat self

/-- `camList.GetBySerial(serial)`: the camera with that serial number, or a
null pointer (`none`) when the list has none. -/
def GetBySerial {R : Type} (camList : List (String × Camera R)) (serial : String) :
    Option (Camera R) :=
  (camList.find? (fun c => c.1 == serial)).map (fun c => c.2)

/-- Body of the constructor `clsBlackfly::clsBlackfly` once `pCam` points to a
camera (`GetInstance`, `GetCameras`, `GetSize` and `Clear` act on the system and
its camera list only and are not traced).  `GetValue()` of an integer node is an
`int64_t`, narrowed to the `int` fields. -/
def construct {R : Type} [One R] (conv : Image → Image) (cam : Camera R) : clsBlackfly R :=
  let d := sdk .Init cam
  let d := setEnumByName "ExposureAuto" "Off" d
  let d := setEnumByName "GainAuto" "Off" d
  let d := sdk (.SetValue "Gamma" 1) d
  let Width := toInt32 (d.intValue "Width")
  let Height := toInt32 (d.intValue "Height")
  let d := setEnumByName "AcquisitionMode" "Continuous" d
  let d := sdk .SetColorProcessing d
  let self : clsBlackfly R :=
    { pCam := d, ImgProcessor := conv, Width := Width, Height := Height }
  let self := SetupTrigger "None" self
  { self with pCam := sdk .BeginAcquisition self.pCam }

/-- The constructor `clsBlackfly::clsBlackfly` on the cameras the system lists;
`none` when no camera has the serial number (`pCam` is then null and
`pCam->Init()` does not return an object). -/
def clsBlackfly.new {R : Type} [One R] (cameras : List (String × Camera R))
    (conv : Image → Image) : Option (clsBlackfly R) :=
  (GetBySerial cameras SerialNo).map (construct conv)

/-! ## Concrete inputs -/

/-- A camera on the bench: entry `Off` has value 0 and every other entry 1,
every enumeration node currently holds 1, the float nodes range over
`[10, 100]`, the sensor is 1440 by 1080, and no frame has been delivered. -/
def benchCamera : Camera Int :=
  { enumEntry := fun _ name => if name = "Off" then 0 else 1
    enumValue := fun _ => 1
    floatValue := fun _ => 50
    floatMin := fun _ => 10
    floatMax := fun _ => 100
    intValue := fun n => if n = "Width" then 1440 else 1080
    buffer := []
    held := []
    trace := [] }

/-- A frame of 3 by 2 pixels with one padding column, rows 4 bytes apart, whose
byte at offset `i` is `i` modulo 256; `id` and the fill offset `base` tell two
frames apart. -/
def smallFrame (id base : Nat) : Image :=
  { id := id, width := 3, height := 2, xPadding := 1, yPadding := 0, stride := 4
    data := fun i => Fin.ofNat (base + i) }

/-- The object the constructor makes on the bench camera, after which two
frames were delivered: frame 1 (bytes from 10) and then frame 2 (bytes from
20). -/
def twoFramesBuffered : clsBlackfly Int :=
  let obj := construct id benchCamera
  { obj with pCam := { obj.pCam with buffer := [smallFrame 1 10, smallFrame 2 20] } }

/-- An image of one column and `2^31` rows, without padding. -/
def tallImage : Image :=
  { id := 7, width := 1, height := 2 ^ 31, xPadding := 0, yPadding := 0, stride := 1
    data := fun _ => 0 }

/-- An image of 2 by 2 pixels whose stride is reported as 0; its byte at offset
`i` is `i` modulo 256. -/
def zeroStrideImage : Image :=
  { id := 8, width := 2, height := 2, xPadding := 0, yPadding := 0, stride := 0
    data := fun i => Fin.ofNat i }

/-- An image of 3 by 2 pixels whose rows are only 2 bytes apart. -/
def shortStrideImage : Image :=
  { id := 9, width := 3, height := 2, xPadding := 0, yPadding := 0, stride := 2
    data := fun i => Fin.ofNat i }

/-- An image of 3 columns and no row. -/
def flatImage : Image :=
  { id := 10, width := 3, height := 0, xPadding := 0, yPadding := 0, stride := 3
    data := fun i => Fin.ofNat i }

/-- The object the constructor makes on the bench camera (its image processor
returns the image it is given), after the frame `img` was delivered. -/
def benchDelivered (img : Image) : clsBlackfly Int :=
  let obj := construct id benchCamera
  { obj with pCam := { obj.pCam with buffer := [img] } }

/-- A camera whose `Width` node reports `2^31`. -/
def wideCamera : Camera Int :=
  { benchCamera with intValue := fun n => if n = "Width" then 2 ^ 31 else 1080 }

/-- The object the constructor makes on the bench camera. -/
def benchObject : clsBlackfly Int := construct id benchCamera

/-- The bench object after one frame was delivered. -/
def oneFrameBuffered : clsBlackfly Int :=
  { benchObject with pCam := { benchObject.pCam with buffer := [smallFrame 1 10] } }

/-! ## Basic facts about the SDK primitives -/

theorem sdk_trace {R : Type} (c : Call R) (d : Camera R) :
    (sdk c d).trace = d.trace ++ [c] := by
  cases c <;> rfl

theorem sdk_enumEntry {R : Type} (c : Call R) (d : Camera R) :
    (sdk c d).enumEntry = d.enumEntry := by
  cases c <;> rfl

theorem sdk_intValue {R : Type} (c : Call R) (d : Camera R) :
    (sdk c d).intValue = d.intValue := by
  cases c <;> rfl

theorem sdk_floatMin {R : Type} (c : Call R) (d : Camera R) :
    (sdk c d).floatMin = d.floatMin := by
  cases c <;> rfl

theorem sdk_floatMax {R : Type} (c : Call R) (d : Camera R) :
    (sdk c d).floatMax = d.floatMax := by
  cases c <;> rfl

theorem sdk_SetValue_floatValue {R : Type} (node : String) (v : R) (d : Camera R) (n : String) :
    (sdk (.SetValue node v) d).floatValue n = if n = node then v else d.floatValue n := rfl

theorem sdk_SetIntValue_enumValue {R : Type} (node : String) (v : Int) (d : Camera R)
    (n : String) :
    (sdk (.SetIntValue node v) d).enumValue n = if n = node then v else d.enumValue n := rfl

/-- Value left in a float node by the two-sided clamp of the setters. -/
theorem clamp_cases {R : Type} [LinearOrder R] (x lo hi : R) (h : lo ≤ hi) :
    let y := if x < lo then lo else x
    let v := if y > hi then hi else y
    (x < lo → v = lo) ∧ (hi < x → v = hi) ∧ (lo ≤ x → x ≤ hi → v = x) ∧ lo ≤ v ∧ v ≤ hi := by
  intro y v
  by_cases h1 : x < lo
  · have hy : y = lo := if_pos h1
    have hv : v = lo := by
      show (if y > hi then hi else y) = lo
      rw [hy, if_neg (not_lt.mpr h)]
    refine ⟨fun _ => hv, fun h2 => ?_, fun h3 => ?_, hv ▸ le_refl lo, hv ▸ h⟩
    · exact absurd (lt_of_le_of_lt h (lt_trans h2 h1)) (lt_irrefl lo)
    · exact absurd h1 (not_lt.mpr h3)
  · have hy : y = x := if_neg h1
    have hlo : lo ≤ x := not_lt.mp h1
    by_cases h2 : hi < x
    · have hv : v = hi := by
        show (if y > hi then hi else y) = hi
        rw [hy, if_pos h2]
      exact ⟨fun h3 => absurd h3 h1, fun _ => hv, fun _ h4 => absurd h2 (not_lt.mpr h4),
        hv ▸ h, hv ▸ le_refl hi⟩
    · have hv : v = x := by
        show (if y > hi then hi else y) = x
        rw [hy, if_neg h2]
      exact ⟨fun h3 => absurd h3 h1, fun h3 => absurd h3 h2, fun _ _ => hv,
        hv ▸ hlo, hv ▸ not_lt.mp h2⟩

/-! ## Exposure and gain -/

/-- C1: with bounds `lo ≤ hi` reported by the `ExposureTime` node, `SetExposure x`
makes exactly one write, `SetValue` on `ExposureTime`, and the value written is
`lo` when `x < lo`, `hi` when `x > hi`, and `x` otherwise; it lies in
`[lo, hi]`. -/
theorem SetExposure_clamps {R : Type} [LinearOrder R] (x lo hi : R) (self : clsBlackfly R)
    (hlo : self.pCam.floatMin "ExposureTime" = lo)
    (hhi : self.pCam.floatMax "ExposureTime" = hi) (h : lo ≤ hi) :
    ∃ v, (SetExposure x self).pCam.trace = self.pCam.trace ++ [Call.SetValue "ExposureTime" v] ∧
      (SetExposure x self).pCam.floatValue "ExposureTime" = v ∧
      (x < lo → v = lo) ∧ (hi < x → v = hi) ∧ (lo ≤ x → x ≤ hi → v = x) ∧
      lo ≤ v ∧ v ≤ hi := by
  subst hlo hhi
  exact ⟨_, rfl, by simp [SetExposure, sdk_SetValue_floatValue], clamp_cases x _ _ h⟩

/-- C2: with bounds `lo ≤ hi` reported by the `Gain` node, `SetGain g` makes
exactly one write, `SetValue` on `Gain`, and the value written is `lo` when
`g < lo`, `hi` when `g > hi`, and `g` otherwise; it lies in `[lo, hi]`. -/
theorem SetGain_clamps {R : Type} [LinearOrder R] (g lo hi : R) (self : clsBlackfly R)
    (hlo : self.pCam.floatMin "Gain" = lo)
    (hhi : self.pCam.floatMax "Gain" = hi) (h : lo ≤ hi) :
    ∃ v, (SetGain g self).pCam.trace = self.pCam.trace ++ [Call.SetValue "Gain" v] ∧
      (SetGain g self).pCam.floatValue "Gain" = v ∧
      (g < lo → v = lo) ∧ (hi < g → v = hi) ∧ (lo ≤ g → g ≤ hi → v = g) ∧
      lo ≤ v ∧ v ≤ hi := by
  subst hlo hhi
  exact ⟨_, rfl, by simp [SetGain, sdk_SetValue_floatValue], clamp_cases g _ _ h⟩

/-! ## Trigger configuration -/

/-- In the call sequence `cs` started from `d`, every write to `TriggerSelector`
or `TriggerSource` is made in a node map whose `TriggerMode` is `Off`. -/
def DisarmedWrites {R : Type} (cs : List (Call R)) (d : Camera R) : Prop :=
  ∀ (i : Nat) (node : String) (v : Int), cs.get? i = some (Call.SetIntValue node v) →
    node = "TriggerSelector" ∨ node = "TriggerSource" →
    (replay (cs.take i) d).enumIs "TriggerMode" "Off"

/-- The four writes of the `Software` and `Hardware` branches of `SetupTrigger`,
for the trigger source entry `src`. -/
def armSequence {R : Type} (d : Camera R) (src : String) : List (Call R) :=
  [ .SetIntValue "TriggerMode" (d.enumEntry "TriggerMode" "Off"),
    .SetIntValue "TriggerSelector" (d.enumEntry "TriggerSelector" "FrameStart"),
    .SetIntValue "TriggerSource" (d.enumEntry "TriggerSource" src),
    .SetIntValue "TriggerMode" (d.enumEntry "TriggerMode" "On") ]

theorem SetupTrigger_Software_pCam {R : Type} (self : clsBlackfly R) :
    (SetupTrigger "Software" self).pCam =
      { replay (armSequence self.pCam "Software") self.pCam with
        trace := self.pCam.trace ++ armSequence self.pCam "Software" } := by
  simp [SetupTrigger, setEnumByName, sdk, Call.effect, replay, armSequence]

theorem SetupTrigger_Hardware_pCam {R : Type} (self : clsBlackfly R) :
    (SetupTrigger "Hardware" self).pCam =
      { replay (armSequence self.pCam "Line0") self.pCam with
        trace := self.pCam.trace ++ armSequence self.pCam "Line0" } := by
  simp [SetupTrigger, setEnumByName, sdk, Call.effect, replay, armSequence]

theorem armSequence_disarmed {R : Type} (d : Camera R) (src : String) :
    DisarmedWrites (armSequence d src) d := by
  intro i node v hget hnode
  match i with
  | 0 =>
    simp [armSequence] at hget
    rcases hnode with h | h <;> rw [← hget.1] at h <;> exact absurd h (by decide)
  | 1 => simp [armSequence, replay, Call.effect, Camera.enumIs]
  | 2 => simp [armSequence, replay, Call.effect, Camera.enumIs]
  | 3 =>
    simp [armSequence] at hget
    rcases hnode with h | h <;> rw [← hget.1] at h <;> exact absurd h (by decide)
  | n + 4 => simp [armSequence] at hget

/-- The predicate `DisarmedWrites` tells sequences apart: on the bench camera,
whose `TriggerMode` is not `Off`, a lone write to `TriggerSelector` is not
disarmed. -/
theorem DisarmedWrites_rejects_armed_write :
    ¬ DisarmedWrites [Call.SetIntValue "TriggerSelector" 1] benchCamera := by
  intro h
  have h0 := h 0 "TriggerSelector" 1 rfl (Or.inl rfl)
  revert h0
  simp [replay, Camera.enumIs, benchCamera]

/-- C3: whatever the node map held before, `SetupTrigger` writes one of three
fixed configurations, taken from the entry table of the node map it was given.
`SetupTrigger("None")` makes the single write of `TriggerMode` to its entry
`Off`; `SetupTrigger("Software")` writes `TriggerMode` to `Off`,
`TriggerSelector` to `FrameStart`, `TriggerSource` to `Software` and
`TriggerMode` to `On`; `SetupTrigger("Hardware")` does the same with
`TriggerSource` written to `Line0`.  In each case the entry table is unchanged,
the nodes hold the values written last (`TriggerMode` is `Off` after `None`,
and `TriggerMode` is `On`, `TriggerSelector` is `FrameStart` and
`TriggerSource` is `Software`, respectively `Line0`, after the other two), and
every other enumeration node keeps its value. -/
theorem SetupTrigger_configurations {R : Type} (self : clsBlackfly R) :
    ((SetupTrigger "None" self).pCam.trace = self.pCam.trace ++
        [ .SetIntValue "TriggerMode" (self.pCam.enumEntry "TriggerMode" "Off") ] ∧
      (SetupTrigger "None" self).pCam.enumEntry = self.pCam.enumEntry ∧
      (SetupTrigger "None" self).pCam.enumValue "TriggerMode" =
        self.pCam.enumEntry "TriggerMode" "Off" ∧
      (∀ n : String, n ≠ "TriggerMode" →
        (SetupTrigger "None" self).pCam.enumValue n = self.pCam.enumValue n) ∧
      (SetupTrigger "None" self).pCam.enumIs "TriggerMode" "Off") ∧
    ((SetupTrigger "Software" self).pCam.trace = self.pCam.trace ++
        [ .SetIntValue "TriggerMode" (self.pCam.enumEntry "TriggerMode" "Off"),
          .SetIntValue "TriggerSelector" (self.pCam.enumEntry "TriggerSelector" "FrameStart"),
          .SetIntValue "TriggerSource" (self.pCam.enumEntry "TriggerSource" "Software"),
          .SetIntValue "TriggerMode" (self.pCam.enumEntry "TriggerMode" "On") ] ∧
      (SetupTrigger "Software" self).pCam.enumEntry = self.pCam.enumEntry ∧
      (SetupTrigger "Software" self).pCam.enumValue "TriggerMode" =
        self.pCam.enumEntry "TriggerMode" "On" ∧
      (SetupTrigger "Software" self).pCam.enumValue "TriggerSelector" =
        self.pCam.enumEntry "TriggerSelector" "FrameStart" ∧
      (SetupTrigger "Software" self).pCam.enumValue "TriggerSource" =
        self.pCam.enumEntry "TriggerSource" "Software" ∧
      (∀ n : String, n ≠ "TriggerMode" → n ≠ "TriggerSelector" → n ≠ "TriggerSource" →
        (SetupTrigger "Software" self).pCam.enumValue n = self.pCam.enumValue n) ∧
      (SetupTrigger "Software" self).pCam.enumIs "TriggerMode" "On" ∧
      (SetupTrigger "Software" self).pCam.enumIs "TriggerSelector" "FrameStart" ∧
      (SetupTrigger "Software" self).pCam.enumIs "TriggerSource" "Software") ∧
    ((SetupTrigger "Hardware" self).pCam.trace = self.pCam.trace ++
        [ .SetIntValue "TriggerMode" (self.pCam.enumEntry "TriggerMode" "Off"),
          .SetIntValue "TriggerSelector" (self.pCam.enumEntry "TriggerSelector" "FrameStart"),
          .SetIntValue "TriggerSource" (self.pCam.enumEntry "TriggerSource" "Line0"),
          .SetIntValue "TriggerMode" (self.pCam.enumEntry "TriggerMode" "On") ] ∧
      (SetupTrigger "Hardware" self).pCam.enumEntry = self.pCam.enumEntry ∧
      (SetupTrigger "Hardware" self).pCam.enumValue "TriggerMode" =
        self.pCam.enumEntry "TriggerMode" "On" ∧
      (SetupTrigger "Hardware" self).pCam.enumValue "TriggerSelector" =
        self.pCam.enumEntry "TriggerSelector" "FrameStart" ∧
      (SetupTrigger "Hardware" self).pCam.enumValue "TriggerSource" =
        self.pCam.enumEntry "TriggerSource" "Line0" ∧
      (∀ n : String, n ≠ "TriggerMode" → n ≠ "TriggerSelector" → n ≠ "TriggerSource" →
        (SetupTrigger "Hardware" self).pCam.enumValue n = self.pCam.enumValue n) ∧
      (SetupTrigger "Hardware" self).pCam.enumIs "TriggerMode" "On" ∧
      (SetupTrigger "Hardware" self).pCam.enumIs "TriggerSelector" "FrameStart" ∧
      (SetupTrigger "Hardware" self).pCam.enumIs "TriggerSource" "Line0") := by
  refine ⟨⟨?_, ?_, ?_, ?_, ?_⟩, ⟨?_, ?_, ?_, ?_, ?_, ?_, ?_, ?_, ?_⟩,
    ⟨?_, ?_, ?_, ?_, ?_, ?_, ?_, ?_, ?_⟩⟩
  all_goals first
    | (intro n h1 h2 h3
       simp [SetupTrigger, setEnumByName, sdk, Call.effect, h1, h2, h3])
    | (intro n h1
       simp [SetupTrigger, setEnumByName, sdk, Call.effect, h1])
    | simp [SetupTrigger, setEnumByName, sdk, Call.effect, Camera.enumIs]

/-- C8: for every mode name other than exactly `None`, `Software` and
`Hardware`, `SetupTrigger` returns the object as it was: no SDK call is added
to the trace, and every node keeps its value (`TriggerMode`, `TriggerSelector`
and `TriggerSource` among them). -/
theorem SetupTrigger_unrecognised {R : Type} (Trigger : String) (self : clsBlackfly R)
    (hN : Trigger ≠ "None") (hS : Trigger ≠ "Software") (hH : Trigger ≠ "Hardware") :
    SetupTrigger Trigger self = self := by
  simp [SetupTrigger, hN, hS, hH]

/-- C9: for `Software` and for `Hardware`, from every initial node map, the
writes of `SetupTrigger` are four; the first writes `TriggerMode` to `Off`, the
last (and no other) writes `TriggerMode` to `On`, and every write to
`TriggerSelector` or `TriggerSource` is made while `TriggerMode` is `Off`. -/
theorem SetupTrigger_disarmed_while_configuring {R : Type} (self : clsBlackfly R) :
    ((SetupTrigger "Software" self).pCam.trace = self.pCam.trace ++
        [ .SetIntValue "TriggerMode" (self.pCam.enumEntry "TriggerMode" "Off"),
          .SetIntValue "TriggerSelector" (self.pCam.enumEntry "TriggerSelector" "FrameStart"),
          .SetIntValue "TriggerSource" (self.pCam.enumEntry "TriggerSource" "Software"),
          .SetIntValue "TriggerMode" (self.pCam.enumEntry "TriggerMode" "On") ] ∧
      DisarmedWrites
        [ .SetIntValue "TriggerMode" (self.pCam.enumEntry "TriggerMode" "Off"),
          .SetIntValue "TriggerSelector" (self.pCam.enumEntry "TriggerSelector" "FrameStart"),
          .SetIntValue "TriggerSource" (self.pCam.enumEntry "TriggerSource" "Software"),
          .SetIntValue "TriggerMode" (self.pCam.enumEntry "TriggerMode" "On") ]
        self.pCam) ∧
    ((SetupTrigger "Hardware" self).pCam.trace = self.pCam.trace ++
        [ .SetIntValue "TriggerMode" (self.pCam.enumEntry "TriggerMode" "Off"),
          .SetIntValue "TriggerSelector" (self.pCam.enumEntry "TriggerSelector" "FrameStart"),
          .SetIntValue "TriggerSource" (self.pCam.enumEntry "TriggerSource" "Line0"),
          .SetIntValue "TriggerMode" (self.pCam.enumEntry "TriggerMode" "On") ] ∧
      DisarmedWrites
        [ .SetIntValue "TriggerMode" (self.pCam.enumEntry "TriggerMode" "Off"),
          .SetIntValue "TriggerSelector" (self.pCam.enumEntry "TriggerSelector" "FrameStart"),
          .SetIntValue "TriggerSource" (self.pCam.enumEntry "TriggerSource" "Line0"),
          .SetIntValue "TriggerMode" (self.pCam.enumEntry "TriggerMode" "On") ]
        self.pCam) :=
  ⟨⟨by rw [SetupTrigger_Software_pCam]; rfl, armSequence_disarmed self.pCam "Software"⟩,
   ⟨by rw [SetupTrigger_Hardware_pCam]; rfl, armSequence_disarmed self.pCam "Line0"⟩⟩

/-! ## Frame capture -/

theorem CaptureImage_SpinnakerPtr_cons {R : Type} (self : clsBlackfly R) (raw : Image)
    (rest : List Image) (h : self.pCam.buffer = raw :: rest) :
    CaptureImage_SpinnakerPtr self =
      some (self.ImgProcessor raw,
        { self with
          pCam := sdk (.Release raw.id) (sdk (.Convert raw.id)
            (sdk (.GetNextImage raw.id) self.pCam)) }) := by
  unfold CaptureImage_SpinnakerPtr
  rw [h]

theorem GetImage_cons {R : Type} (self : clsBlackfly R) (raw : Image)
    (rest : List Image) (h : self.pCam.buffer = raw :: rest) :
    GetImage self =
      some (cvMatOfImage (self.ImgProcessor raw),
        { self with
          pCam := sdk (.Release raw.id) (sdk (.Convert raw.id)
            (sdk (.GetNextImage raw.id) self.pCam)) }) := by
  unfold GetImage CaptureImage_CVMat
  rw [CaptureImage_SpinnakerPtr_cons self raw rest h]

/-- C4: when the stream delivers a raw frame, `GetImage` completes (with the
matrix made from the converted frame, or with OpenCV's error after the SDK
calls), and the SDK calls it makes are `GetNextImage`, then `Convert` on that
raw image, then one `Release` of it, in this order and nothing else; the raw
images held and not released are the same after the call as before it. -/
theorem GetImage_releases_raw {R : Type} (self : clsBlackfly R) (raw : Image)
    (rest : List Image) (h : self.pCam.buffer = raw :: rest) :
    ∃ (cvimg : Option Mat) (after : clsBlackfly R),
      GetImage self = some (cvimg, after) ∧
      cvimg = cvMatOfImage (self.ImgProcessor raw) ∧
      after.pCam.trace = self.pCam.trace ++
        [Call.GetNextImage raw.id, Call.Convert raw.id, Call.Release raw.id] ∧
      after.pCam.held = self.pCam.held ∧
      after.pCam.buffer = rest := by
  refine ⟨_, _, GetImage_cons self raw rest h, rfl, ?_, ?_, ?_⟩
  · simp [sdk_trace]
  · simp [sdk, Call.effect]
  · simp [sdk, Call.effect, h]

theorem toInt32_small (n : Nat) (h : n < 2 ^ 31) : toInt32 (n : Int) = n := by
  unfold toInt32
  norm_num at h ⊢
  omega

theorem toUInt32_add_small (a b : Nat) (h : a + b < 2 ^ 31) :
    toUInt32 (toUInt32 a + toUInt32 b) = a + b := by
  unfold toUInt32
  norm_num at h ⊢
  omega

theorem toSizeT_small (n : Nat) (h : n < 2 ^ 31) : toSizeT (n : Int) = n := by
  unfold toSizeT
  norm_num at h ⊢
  omega

theorem CV_8UC1_elemSize : CV_ELEM_SIZE CV_8UC1 = 1 := by decide

theorem CV_8UC1_elemSize1 : CV_ELEM_SIZE1 CV_8UC1 = 1 := by decide

/-- The constructor over user data, for a byte matrix whose step covers a
non-empty row. -/
theorem ofUserData_bytes (rows : Int) (n : Nat) (data : Nat → Fin 256) (step : Nat)
    (hn : n < 2 ^ 31) (hpos : 0 < n) (hs : n ≤ step) :
    Mat.ofUserData rows (n : Int) CV_8UC1 data step =
      some { rows := rows, cols := n, type := CV_8UC1, step := step, elemSize := 1,
             data := data } := by
  have hmin : (toSizeT (n : Int) * CV_ELEM_SIZE CV_8UC1) % 2 ^ 64 = n := by
    rw [toSizeT_small n hn, CV_8UC1_elemSize, Nat.mul_one]
    apply Nat.mod_eq_of_lt
    norm_num at hn ⊢
    omega
  have h0 : step ≠ AUTO_STEP := by unfold AUTO_STEP; omega
  unfold Mat.ofUserData
  dsimp only
  rw [hmin, CV_8UC1_elemSize, CV_8UC1_elemSize1, if_neg h0, if_neg (by omega),
    if_neg (by simp [Nat.mod_one])]

/-- The clone of a matrix with positive sizes. -/
theorem clone_of_pos (m : Mat) (a b : Nat) (hr : m.rows = a) (hc : m.cols = b)
    (ha : 0 < a) (hb : 0 < b) (ha2 : a < 2 ^ 31) (hb2 : b < 2 ^ 31) :
    m.clone = some { m with
      step := b * m.elemSize
      data := fun i => m.data (i / (b * m.elemSize) * m.step + i % (b * m.elemSize)) } := by
  have htot : m.total ≠ 0 := by
    unfold Mat.total
    rw [hr, hc, toSizeT_small a ha2, toSizeT_small b hb2]
    have h1 : 0 < a * b := Nat.mul_pos ha hb
    have h2 : a * b < 2 ^ 31 * 2 ^ 31 := Nat.mul_lt_mul'' ha2 hb2
    have h3 : a * b % 2 ^ 64 = a * b := by
      apply Nat.mod_eq_of_lt
      norm_num at h2 ⊢
      omega
    omega
  have hneg : ¬ (m.rows < 0 ∨ m.cols < 0) := by
    rw [hr, hc]
    omega
  unfold Mat.clone
  rw [if_neg htot, if_neg hneg, hc]
  rfl

theorem cvMatOfImage_small (img : Image)
    (hH0 : 0 < img.height + img.yPadding) (hH : img.height + img.yPadding < 2 ^ 31)
    (hW0 : 0 < img.width + img.xPadding) (hW : img.width + img.xPadding < 2 ^ 31)
    (hS : img.width + img.xPadding ≤ img.stride) :
    ∃ cvimg : Mat, cvMatOfImage img = some cvimg ∧
      cvimg.rows = (img.height + img.yPadding : Nat) ∧
      cvimg.cols = (img.width + img.xPadding : Nat) ∧
      cvimg.elemSize = 1 ∧
      ∀ r c : Nat, c < img.width + img.xPadding →
        cvimg.atUchar r c = img.data (r * img.stride + c) := by
  have hrows : toInt32 (toUInt32 (toUInt32 img.height + toUInt32 img.yPadding))
      = (img.height + img.yPadding : Nat) := by
    rw [toUInt32_add_small _ _ hH]; exact toInt32_small _ hH
  have hcols : toInt32 (toUInt32 (toUInt32 img.width + toUInt32 img.xPadding))
      = (img.width + img.xPadding : Nat) := by
    rw [toUInt32_add_small _ _ hW]; exact toInt32_small _ hW
  have hmat : cvMatOfImage img =
      some { rows := ((img.height + img.yPadding : Nat) : Int)
             cols := ((img.width + img.xPadding : Nat) : Int)
             type := CV_8UC1
             step := (img.width + img.xPadding) * 1
             elemSize := 1
             data := fun i => img.data (i / ((img.width + img.xPadding) * 1) * img.stride +
               i % ((img.width + img.xPadding) * 1)) } := by
    unfold cvMatOfImage
    simp only [hrows, hcols]
    rw [ofUserData_bytes _ _ _ _ hW hW0 hS]
    exact clone_of_pos _ _ _ rfl rfl hH0 hW0 hH hW
  refine ⟨_, hmat, rfl, rfl, rfl, ?_⟩
  intro r c hc
  show img.data ((r * ((img.width + img.xPadding) * 1) + c * 1) /
      ((img.width + img.xPadding) * 1) * img.stride +
      (r * ((img.width + img.xPadding) * 1) + c * 1) % ((img.width + img.xPadding) * 1))
    = img.data (r * img.stride + c)
  rw [Nat.mul_one, Nat.mul_one]
  have hd : (r * (img.width + img.xPadding) + c) / (img.width + img.xPadding) = r := by
    rw [Nat.mul_comm, Nat.mul_add_div hW0, Nat.div_eq_of_lt hc, Nat.add_zero]
  have hm : (r * (img.width + img.xPadding) + c) % (img.width + img.xPadding) = c := by
    rw [Nat.mul_comm, Nat.mul_add_mod, Nat.mod_eq_of_lt hc]
  rw [hd, hm]

/-- C5, amended: when the stream delivers a frame and the converted image is
not empty, fits the `int` row and column counts of the matrix
(`0 < H + YP < 2^31` and `0 < W + XP < 2^31`) and has a stride that covers a
row (`S ≥ W + XP`), `CaptureImage_CVMat` returns a matrix with `H + YP` rows and
`W + XP` columns of one byte each, whose element at row `r`, column `c` is
`D[r * S + c]` for every `r < H + YP` and `c < W + XP`. -/
theorem CaptureImage_CVMat_copies_padded {R : Type} (self : clsBlackfly R) (raw : Image)
    (rest : List Image) (h : self.pCam.buffer = raw :: rest)
    (hH0 : 0 < (self.ImgProcessor raw).height + (self.ImgProcessor raw).yPadding)
    (hH : (self.ImgProcessor raw).height + (self.ImgProcessor raw).yPadding < 2 ^ 31)
    (hW0 : 0 < (self.ImgProcessor raw).width + (self.ImgProcessor raw).xPadding)
    (hW : (self.ImgProcessor raw).width + (self.ImgProcessor raw).xPadding < 2 ^ 31)
    (hS : (self.ImgProcessor raw).width + (self.ImgProcessor raw).xPadding ≤
      (self.ImgProcessor raw).stride) :
    ∃ (cvimg : Mat) (after : clsBlackfly R),
      CaptureImage_CVMat self = some (some cvimg, after) ∧
      cvimg.rows = ((self.ImgProcessor raw).height + (self.ImgProcessor raw).yPadding : Nat) ∧
      cvimg.cols = ((self.ImgProcessor raw).width + (self.ImgProcessor raw).xPadding : Nat) ∧
      cvimg.elemSize = 1 ∧
      ∀ r c : Nat, r < (self.ImgProcessor raw).height + (self.ImgProcessor raw).yPadding →
        c < (self.ImgProcessor raw).width + (self.ImgProcessor raw).xPadding →
        cvimg.atUchar r c =
          (self.ImgProcessor raw).data (r * (self.ImgProcessor raw).stride + c) := by
  obtain ⟨cvimg, h0, h1, h2, h3, h4⟩ :=
    cvMatOfImage_small (self.ImgProcessor raw) hH0 hH hW0 hW hS
  have hget := GetImage_cons self raw rest h
  unfold GetImage at hget
  rw [h0] at hget
  exact ⟨cvimg, _, hget, h1, h2, h3, fun r c _ hc => h4 r c hc⟩

/-- C7: with no trigger configured and two frames buffered (frame 1, then
frame 2), `GetImage` returns the matrix of frame 1, the older one, and leaves
frame 2, the last one captured, in the buffer. -/
theorem GetImage_returns_oldest_buffered :
    twoFramesBuffered.pCam.enumIs "TriggerMode" "Off" ∧
    twoFramesBuffered.pCam.buffer.map (fun f => (f.id, f.data 0)) = [(1, 10), (2, 20)] ∧
    (GetImage twoFramesBuffered).map
      (fun r => (r.1.map (fun cvimg => cvimg.atUchar 0 0),
        r.2.pCam.buffer.map (fun f => f.id), r.2.pCam.trace.drop 8)) =
      some (some 10, [2], [Call.GetNextImage 1, Call.Convert 1, Call.Release 1]) := by
  refine ⟨?_, ?_, ?_⟩
  · simp [twoFramesBuffered, construct, SetupTrigger, setEnumByName, sdk, Call.effect,
      Camera.enumIs]
  · decide
  · rw [GetImage_cons twoFramesBuffered (smallFrame 1 10) [smallFrame 2 20] rfl]
    decide

/-- C5, as stated, fails, at four converted images none of which overflows
32 bits unsigned in `H + YP` or `W + XP`.  For `tallImage` (`H + YP = 2^31`)
no matrix is returned: the row count passed as `int` is negative and the clone
raises an error.  For `zeroStrideImage` (2 by 2, `S = 0`) the element at row 1,
column 0 is `D[2]`, not `D[1 * S + 0] = D[0]`.  For `shortStrideImage`
(3 by 2, `S = 2`) no matrix is returned.  For `flatImage` (3 columns, no row)
the matrix returned has 0 columns, not 3. -/
theorem CaptureImage_CVMat_counterexample :
    ((benchDelivered tallImage).pCam.buffer.map (benchDelivered tallImage).ImgProcessor
        = [tallImage] ∧
      tallImage.height + tallImage.yPadding < 2 ^ 32 ∧
      tallImage.width + tallImage.xPadding < 2 ^ 32 ∧
      (CaptureImage_CVMat (benchDelivered tallImage)).map (fun r => r.1.isSome) =
        some false) ∧
    ((CaptureImage_CVMat (benchDelivered zeroStrideImage)).map
        (fun r => r.1.map (fun cvimg => (cvimg.rows, cvimg.cols, cvimg.atUchar 1 0))) =
        some (some (2, 2, zeroStrideImage.data 2)) ∧
      zeroStrideImage.data 2 ≠ zeroStrideImage.data (1 * zeroStrideImage.stride + 0)) ∧
    (CaptureImage_CVMat (benchDelivered shortStrideImage)).map (fun r => r.1.isSome) =
      some false ∧
    ((CaptureImage_CVMat (benchDelivered flatImage)).map
        (fun r => r.1.map (fun cvimg => (cvimg.rows, cvimg.cols))) = some (some (0, 0)) ∧
      flatImage.width + flatImage.xPadding = 3) := by
  refine ⟨⟨rfl, by decide, by decide, ?_⟩, ⟨?_, by decide⟩, ?_, ?_, rfl⟩
  · have hget := GetImage_cons (benchDelivered tallImage) tallImage [] rfl
    unfold GetImage at hget
    rw [hget]
    decide
  · have hget := GetImage_cons (benchDelivered zeroStrideImage) zeroStrideImage [] rfl
    unfold GetImage at hget
    rw [hget]
    decide
  · have hget := GetImage_cons (benchDelivered shortStrideImage) shortStrideImage [] rfl
    unfold GetImage at hget
    rw [hget]
    decide
  · have hget := GetImage_cons (benchDelivered flatImage) flatImage [] rfl
    unfold GetImage at hget
    rw [hget]
    decide

/-! ## Construction -/

theorem construct_trace {R : Type} [One R] (conv : Image → Image) (cam : Camera R) :
    (construct conv cam).pCam.trace = cam.trace ++
      [ .Init,
        .SetIntValue "ExposureAuto" (cam.enumEntry "ExposureAuto" "Off"),
        .SetIntValue "GainAuto" (cam.enumEntry "GainAuto" "Off"),
        .SetValue "Gamma" 1,
        .SetIntValue "AcquisitionMode" (cam.enumEntry "AcquisitionMode" "Continuous"),
        .SetColorProcessing,
        .SetIntValue "TriggerMode" (cam.enumEntry "TriggerMode" "Off"),
        .BeginAcquisition ] := by
  simp [construct, SetupTrigger, setEnumByName, sdk, Call.effect]

theorem construct_nodes {R : Type} [One R] (conv : Image → Image) (cam : Camera R) :
    (construct conv cam).pCam.enumIs "ExposureAuto" "Off" ∧
    (construct conv cam).pCam.enumIs "GainAuto" "Off" ∧
    (construct conv cam).pCam.floatValue "Gamma" = 1 ∧
    (construct conv cam).pCam.enumIs "AcquisitionMode" "Continuous" ∧
    (construct conv cam).pCam.enumIs "TriggerMode" "Off" := by
  refine ⟨?_, ?_, ?_, ?_, ?_⟩ <;>
    simp [construct, SetupTrigger, setEnumByName, sdk, Call.effect, Camera.enumIs]

theorem construct_fields {R : Type} [One R] (conv : Image → Image) (cam : Camera R) :
    (construct conv cam).Width = toInt32 (cam.intValue "Width") ∧
    (construct conv cam).Height = toInt32 (cam.intValue "Height") ∧
    (construct conv cam).pCam.intValue = cam.intValue := by
  refine ⟨?_, ?_, ?_⟩ <;>
    simp [construct, SetupTrigger, setEnumByName, sdk, Call.effect]

theorem toInt32_of_range (v : Int) (h1 : -2 ^ 31 ≤ v) (h2 : v < 2 ^ 31) : toInt32 v = v := by
  unfold toInt32
  norm_num at h1 h2 ⊢
  omega

/-- C6, amended: when the camera with the fixed serial number is found, the
constructor returns an object; in it `ExposureAuto` is `Off`, `GainAuto` is
`Off`, `Gamma` is 1, `AcquisitionMode` is `Continuous` and `TriggerMode` is
`Off`; the fields `Width` and `Height` hold the values of the `Width` and
`Height` nodes narrowed to `int`, which are the node values themselves when
these lie in `[-2^31, 2^31)`; and `BeginAcquisition` is called once, as the last
call, after every node write. -/
theorem constructor_negotiates_then_acquires {R : Type} [One R]
    (cameras : List (String × Camera R)) (conv : Image → Image) (cam : Camera R)
    (hfound : GetBySerial cameras SerialNo = some cam) :
    ∃ obj : clsBlackfly R, clsBlackfly.new cameras conv = some obj ∧
      obj.pCam.enumIs "ExposureAuto" "Off" ∧
      obj.pCam.enumIs "GainAuto" "Off" ∧
      obj.pCam.floatValue "Gamma" = 1 ∧
      obj.pCam.enumIs "AcquisitionMode" "Continuous" ∧
      obj.pCam.enumIs "TriggerMode" "Off" ∧
      obj.Width = toInt32 (obj.pCam.intValue "Width") ∧
      obj.Height = toInt32 (obj.pCam.intValue "Height") ∧
      (-2 ^ 31 ≤ obj.pCam.intValue "Width" → obj.pCam.intValue "Width" < 2 ^ 31 →
        obj.Width = obj.pCam.intValue "Width") ∧
      (-2 ^ 31 ≤ obj.pCam.intValue "Height" → obj.pCam.intValue "Height" < 2 ^ 31 →
        obj.Height = obj.pCam.intValue "Height") ∧
      obj.pCam.intValue = cam.intValue ∧
      obj.pCam.trace = cam.trace ++
        [ .Init,
          .SetIntValue "ExposureAuto" (cam.enumEntry "ExposureAuto" "Off"),
          .SetIntValue "GainAuto" (cam.enumEntry "GainAuto" "Off"),
          .SetValue "Gamma" 1,
          .SetIntValue "AcquisitionMode" (cam.enumEntry "AcquisitionMode" "Continuous"),
          .SetColorProcessing,
          .SetIntValue "TriggerMode" (cam.enumEntry "TriggerMode" "Off"),
          .BeginAcquisition ] := by
  obtain ⟨n1, n2, n3, n4, n5⟩ := construct_nodes conv cam
  obtain ⟨f1, f2, f3⟩ := construct_fields conv cam
  refine ⟨construct conv cam, ?_, n1, n2, n3, n4, n5, ?_, ?_, ?_, ?_, f3, construct_trace conv cam⟩
  · unfold clsBlackfly.new
    rw [hfound]
    rfl
  · rw [f3]; exact f1
  · rw [f3]; exact f2
  · intro h1 h2
    rw [f3] at h1 h2 ⊢
    rw [f1]; exact toInt32_of_range _ h1 h2
  · intro h1 h2
    rw [f3] at h1 h2 ⊢
    rw [f2]; exact toInt32_of_range _ h1 h2

/-- C6, as stated, fails: on a camera that is found and whose `Width` node
reports `2^31`, the constructed object has `Width = -2^31`, not the value of
the node. -/
theorem constructor_Width_counterexample :
    GetBySerial [("22421982", wideCamera)] SerialNo = some wideCamera ∧
    (clsBlackfly.new [("22421982", wideCamera)] id).map
      (fun obj => (obj.Width, obj.pCam.intValue "Width")) =
      some (-2147483648, 2147483648) := by
  constructor
  · rfl
  · decide

/-! ## The theorems at concrete inputs -/

/-- On the bench object (bounds 10 and 100) a requested exposure of 5 is
written as 10. -/
theorem SetExposure_clamps_witness :
    (10 : Int) ≤ 100 ∧
    ∃ v, (SetExposure 5 benchObject).pCam.trace =
        benchObject.pCam.trace ++ [Call.SetValue "ExposureTime" v] ∧
      (SetExposure 5 benchObject).pCam.floatValue "ExposureTime" = v ∧
      ((5 : Int) < 10 → v = 10) ∧ ((100 : Int) < 5 → v = 100) ∧
      ((10 : Int) ≤ 5 → (5 : Int) ≤ 100 → v = 5) ∧ 10 ≤ v ∧ v ≤ 100 :=
  ⟨by decide, SetExposure_clamps 5 10 100 benchObject rfl rfl (by decide)⟩

/-- On the bench object (bounds 10 and 100) a requested gain of 250 is written
as 100. -/
theorem SetGain_clamps_witness :
    (10 : Int) ≤ 100 ∧
    ∃ v, (SetGain 250 benchObject).pCam.trace =
        benchObject.pCam.trace ++ [Call.SetValue "Gain" v] ∧
      (SetGain 250 benchObject).pCam.floatValue "Gain" = v ∧
      ((250 : Int) < 10 → v = 10) ∧ ((100 : Int) < 250 → v = 100) ∧
      ((10 : Int) ≤ 250 → (250 : Int) ≤ 100 → v = 250) ∧ 10 ≤ v ∧ v ≤ 100 :=
  ⟨by decide, SetGain_clamps 250 10 100 benchObject rfl rfl (by decide)⟩

/-- With one frame delivered to the bench object, `GetImage` gets, converts and
releases frame 1. -/
theorem GetImage_releases_raw_witness :
    oneFrameBuffered.pCam.buffer = [smallFrame 1 10] ∧
    ∃ (cvimg : Option Mat) (after : clsBlackfly Int),
      GetImage oneFrameBuffered = some (cvimg, after) ∧
      cvimg = cvMatOfImage (oneFrameBuffered.ImgProcessor (smallFrame 1 10)) ∧
      after.pCam.trace = oneFrameBuffered.pCam.trace ++
        [Call.GetNextImage (smallFrame 1 10).id, Call.Convert (smallFrame 1 10).id,
          Call.Release (smallFrame 1 10).id] ∧
      after.pCam.held = oneFrameBuffered.pCam.held ∧
      after.pCam.buffer = [] :=
  ⟨rfl, GetImage_releases_raw oneFrameBuffered (smallFrame 1 10) [] rfl⟩

/-- With the 3 by 2 frame with one padding column and stride 4 delivered, the
matrix has 2 rows and 4 columns, and its elements are the bytes at
`r * 4 + c`. -/
theorem CaptureImage_CVMat_copies_padded_witness :
    oneFrameBuffered.pCam.buffer = [smallFrame 1 10] ∧
    (oneFrameBuffered.ImgProcessor (smallFrame 1 10)).height +
      (oneFrameBuffered.ImgProcessor (smallFrame 1 10)).yPadding = 2 ∧
    (oneFrameBuffered.ImgProcessor (smallFrame 1 10)).width +
      (oneFrameBuffered.ImgProcessor (smallFrame 1 10)).xPadding = 4 ∧
    (oneFrameBuffered.ImgProcessor (smallFrame 1 10)).stride = 4 ∧
    ∃ (cvimg : Mat) (after : clsBlackfly Int),
      CaptureImage_CVMat oneFrameBuffered = some (some cvimg, after) ∧
      cvimg.rows = ((oneFrameBuffered.ImgProcessor (smallFrame 1 10)).height +
        (oneFrameBuffered.ImgProcessor (smallFrame 1 10)).yPadding : Nat) ∧
      cvimg.cols = ((oneFrameBuffered.ImgProcessor (smallFrame 1 10)).width +
        (oneFrameBuffered.ImgProcessor (smallFrame 1 10)).xPadding : Nat) ∧
      cvimg.elemSize = 1 ∧
      ∀ r c : Nat,
        r < (oneFrameBuffered.ImgProcessor (smallFrame 1 10)).height +
          (oneFrameBuffered.ImgProcessor (smallFrame 1 10)).yPadding →
        c < (oneFrameBuffered.ImgProcessor (smallFrame 1 10)).width +
          (oneFrameBuffered.ImgProcessor (smallFrame 1 10)).xPadding →
        cvimg.atUchar r c =
          (oneFrameBuffered.ImgProcessor (smallFrame 1 10)).data
            (r * (oneFrameBuffered.ImgProcessor (smallFrame 1 10)).stride + c) :=
  ⟨rfl, rfl, rfl, rfl,
    CaptureImage_CVMat_copies_padded oneFrameBuffered (smallFrame 1 10) [] rfl
      (by decide) (by decide) (by decide) (by decide) (by decide)⟩

/-- The constructor finds the bench camera under the fixed serial number and
leaves it configured and acquiring. -/
theorem constructor_negotiates_then_acquires_witness :
    GetBySerial [("00000000", wideCamera), ("22421982", benchCamera)] SerialNo =
      some benchCamera ∧
    ∃ obj : clsBlackfly Int,
      clsBlackfly.new [("00000000", wideCamera), ("22421982", benchCamera)] id = some obj ∧
      obj.pCam.enumIs "ExposureAuto" "Off" ∧
      obj.pCam.enumIs "GainAuto" "Off" ∧
      obj.pCam.floatValue "Gamma" = 1 ∧
      obj.pCam.enumIs "AcquisitionMode" "Continuous" ∧
      obj.pCam.enumIs "TriggerMode" "Off" ∧
      obj.Width = toInt32 (obj.pCam.intValue "Width") ∧
      obj.Height = toInt32 (obj.pCam.intValue "Height") ∧
      (-2 ^ 31 ≤ obj.pCam.intValue "Width" → obj.pCam.intValue "Width" < 2 ^ 31 →
        obj.Width = obj.pCam.intValue "Width") ∧
      (-2 ^ 31 ≤ obj.pCam.intValue "Height" → obj.pCam.intValue "Height" < 2 ^ 31 →
        obj.Height = obj.pCam.intValue "Height") ∧
      obj.pCam.intValue = benchCamera.intValue ∧
      obj.pCam.trace = benchCamera.trace ++
        [ .Init,
          .SetIntValue "ExposureAuto" (benchCamera.enumEntry "ExposureAuto" "Off"),
          .SetIntValue "GainAuto" (benchCamera.enumEntry "GainAuto" "Off"),
          .SetValue "Gamma" 1,
          .SetIntValue "AcquisitionMode" (benchCamera.enumEntry "AcquisitionMode" "Continuous"),
          .SetColorProcessing,
          .SetIntValue "TriggerMode" (benchCamera.enumEntry "TriggerMode" "Off"),
          .BeginAcquisition ] :=
  ⟨rfl, constructor_negotiates_then_acquires _ id benchCamera rfl⟩

/-- The names `none`, `software` and the empty name leave the bench object as
it was. -/
theorem SetupTrigger_unrecognised_witness :
    ("none" ≠ "None" ∧ "none" ≠ "Software" ∧ "none" ≠ "Hardware") ∧
    SetupTrigger "none" benchObject = benchObject ∧
    SetupTrigger "software" benchObject = benchObject ∧
    SetupTrigger "" benchObject = benchObject :=
  ⟨by decide,
   SetupTrigger_unrecognised "none" benchObject (by decide) (by decide) (by decide),
   SetupTrigger_unrecognised "software" benchObject (by decide) (by decide) (by decide),
   SetupTrigger_unrecognised "" benchObject (by decide) (by decide) (by decide)⟩

end Blackfly
